import Mathlib

/-!
A shallow embedding of the startup component checkers of OpenIMSDK/tools
(`component/component.go`): the environment resolver `getEnv`, the URI
builder `buildMongoURI`, the host extractor `exactIP`, the topic membership
test `IsTopicPresent`, and the five checkers `CheckMongo`, `CheckMinio`,
`CheckRedis`, `CheckZookeeper`, `CheckKafka`.

The process environment is modelled as a partial map `String → Option String`.
Outcomes of external library calls (connect, ping, health check, topic
listing, event delivery) are inputs to each checker, bundled in a per-checker
"world" structure; the checker body itself mirrors the Go control flow over
those outcomes.  Each checker additionally returns a trace of resource
actions (`openConn` when a connection/client/handle is successfully
acquired, `closeConn` when it is released), so that the close-on-every-path
discipline is a statement about the trace.
-/

namespace Component

/-- The process environment: `some v` when the variable is set (possibly to
the empty string), `none` when it is unset. -/
def Env : Type := String → Option String

/-- The empty environment: no variable is set. -/
def envEmpty : Env := fun _ => none

/-- Environment update: sets key `k` to value `v`. -/
def updateEnv (env : Env) (k v : String) : Env :=
  fun x => if x = k then some v else env x

/-- Embedding of `getEnv` (component.go:61-66): return the value of the
environment variable `key` if it is set — including when set to the empty
string — otherwise return `fallback`. -/
def getEnv (env : Env) (key fallback : String) : String :=
  match env key with
  | some value => value
  | none => fallback

/-- Error codes from component.go:43-44. -/
def componentStartErrCode : Int := 6000

def configErrCode : Int := 6001

/-- Embedding of the Go error values built in component.go:
`transport` is an error produced by a client library, `new` is
`errors.New(msg)`, `errStr` is `ErrStr(err, str)` (component.go:335-337,
`fmt.Errorf("%v;%s", err, str)`), `wrap` is `errs.Wrap(err, msgs...)`, and
`codeWrap` is `errs.NewCodeError(code, name).Wrap(msg)`. -/
inductive Err : Type where
  | transport (msg : String)
  | new (msg : String)
  | errStr (e : Err) (s : String)
  | wrap (e : Err) (msgs : List String)
  | codeWrap (code : Int) (name : String) (msg : String)
deriving DecidableEq

/-- Embedding of `ErrStr` (component.go:335-337). -/
def ErrStr (err : Err) (str : String) : Err := .errStr err str

/-- Embedding of `errs.Wrap(err, msgs...)`. -/
def errsWrap (err : Err) (msgs : List String) : Err := .wrap err msgs

/-- Embedding of `ErrComponentStart.Wrap(msg)` (component.go:56). -/
def ErrComponentStartWrap (msg : String) : Err :=
  .codeWrap componentStartErrCode "ComponentStartErr" msg

/-- Embedding of `ErrConfig.Wrap(msg)` (component.go:57). -/
def ErrConfigWrap (msg : String) : Err :=
  .codeWrap configErrCode "Config file is incorrect" msg

/-- Classifier: is this the configuration error (code 6001)? -/
def Err.isConfigErr : Err → Bool
  | .codeWrap code _ _ => code == configErrCode
  | _ => false

/-- Classifier: is this the component-start error (code 6000)? -/
def Err.isComponentStartErr : Err → Bool
  | .codeWrap code _ _ => code == componentStartErrCode
  | _ => false

/-- Resource actions recorded by a checker run: acquiring and releasing the
checker's connection/client/handle. -/
inductive RAction : Type where
  | openConn
  | closeConn
deriving DecidableEq

/-- Mirror of `config.Mongo` (the fields component.go reads). -/
structure MongoConf : Type where
  Address : List String
  Username : String
  Password : String
  Database : String
  MaxPoolSize : Int

/-- Mirror of the inner `config.Object.Minio` fields read by CheckMinio. -/
structure MinioInnerConf : Type where
  Endpoint : String
  AccessKeyID : String
  SecretAccessKey : String
  SignEndpoint : String

/-- Mirror of `config.Object` (the fields component.go reads). -/
structure ObjectConf : Type where
  Enable : String
  ApiURL : String
  Minio : MinioInnerConf

/-- Mirror of `config.Redis` (the fields component.go reads). -/
structure RedisConf : Type where
  Address : List String
  Username : String
  Password : String

/-- Mirror of `config.Zookeeper` (the fields component.go reads). -/
structure ZookeeperConf : Type where
  ZkAddr : List String
  Username : String
  Password : String

/-- Mirror of a `config.Kafka` topic entry (only the `Topic` field is read). -/
structure KafkaTopicConf : Type where
  Topic : String

/-- Mirror of `config.Kafka` (the fields component.go reads). -/
structure KafkaConf : Type where
  Addr : List String
  Username : String
  Password : String
  MsgToMongo : KafkaTopicConf
  MsgToPush : KafkaTopicConf
  LatestMsgToRedis : KafkaTopicConf

/-- Embedding of `buildMongoURI` (component.go:94-109): credentials appear
in the URI exactly when both username and password are non-empty. -/
def buildMongoURI (mongoStu : MongoConf) : String :=
  let username := mongoStu.Username
  let password := mongoStu.Password
  let database := mongoStu.Database
  let maxPoolSize := mongoStu.MaxPoolSize
  let mongodbHosts := String.intercalate "," mongoStu.Address
  if username != "" && password != "" then
    "mongodb://" ++ username ++ ":" ++ password ++ "@" ++ mongodbHosts ++ "/" ++
      database ++ "?maxPoolSize=" ++ toString maxPoolSize
  else
    "mongodb://" ++ mongodbHosts ++ "/" ++ database ++ "?maxPoolSize=" ++
      toString maxPoolSize

/-- The URI the Mongo checker actually connects with (component.go:70):
`getEnv("MONGO_URI", buildMongoURI(mongoStu))`.  This is the only point at
which the Mongo checker consults the environment. -/
def mongoURIOf (env : Env) (mongoStu : MongoConf) : String :=
  getEnv env "MONGO_URI" (buildMongoURI mongoStu)

/-- Outcomes of the external MongoDB library calls during one run:
`connectErr` is the error from `mongo.Connect` (`none` = success),
`pingErr` the error from `client.Ping`. -/
structure MongoWorld : Type where
  connectErr : Option String
  pingErr : Option String

/-- Result and resource trace of one Mongo checker run. -/
structure MongoRun : Type where
  result : Except Err String
  trace : List RAction

/-- Embedding of `CheckMongo` (component.go:69-91).  On a successful
`mongo.Connect` the client is acquired and `defer client.Disconnect`
releases it at return, on both the ping-failure and the success path; if
`mongo.Connect` fails no client is acquired. -/
def CheckMongo (env : Env) (mongoStu : MongoConf) (w : MongoWorld) : MongoRun :=
  let _uri := mongoURIOf env mongoStu
  let str := "ths addr is:" ++ String.intercalate "," mongoStu.Address
  match w.connectErr with
  | some e => ⟨.error (errsWrap (ErrStr (.transport e) str) []), []⟩
  | none =>
    match w.pingErr with
    | some e => ⟨.error (errsWrap (ErrStr (.transport e) str) []),
                 [.openConn, .closeConn]⟩
    | none => ⟨.ok str, [.openConn, .closeConn]⟩

/-- Model of Go `strings.Split` with a one-character separator (every
separator used by component.go — `","` — is one character): split the
character list at each occurrence of `sep`.  Like `strings.Split`, the
result is never empty and an empty input yields `[[]]`. -/
def charsSplitOn (sep : Char) : List Char → List (List Char)
  | [] => [[]]
  | c :: cs =>
      let r := charsSplitOn sep cs
      if c = sep then [] :: r else (c :: r.headD []) :: r.tail

/-- `strings.Split s sep` for a one-character separator, on strings. -/
def stringsSplit (s : String) (sep : Char) : List String :=
  (charsSplitOn sep s.data).map String.mk

/-- Split a character list at its first colon: `some (before, after)` when
a colon occurs, `none` otherwise. -/
def splitAtColon : List Char → Option (List Char × List Char)
  | [] => none
  | c :: cs =>
      if c = ':' then some ([], cs)
      else
        match splitAtColon cs with
        | some (pre, post) => some (c :: pre, post)
        | none => none

/-- The leading characters of a list up to (excluding) the first `'/'`. -/
def upToSlash : List Char → List Char
  | [] => []
  | c :: cs => if c = '/' then [] else c :: upToSlash cs

/-- Model of the part of `net/url.Parse` used here: for an absolute URL
`scheme://authority/rest` it returns `(u.Scheme, u.Host) = (scheme,
authority)`; for a string without a `"://"` separator it returns
`("", "")`.  (The Go checkers only ever read `u.Scheme` and `u.Host`, on
well-formed absolute URLs or empty strings.) -/
def urlSchemeHost (s : String) : String × String :=
  match splitAtColon s.data with
  | some (scheme, post) =>
      match post with
      | '/' :: '/' :: rest => (String.mk scheme, String.mk (upToSlash rest))
      | _ => ("", "")
  | none => ("", "")

/-- The number of colons in a character list. -/
def colonCount : List Char → Nat
  | [] => 0
  | c :: cs => (if c = ':' then 1 else 0) + colonCount cs

/-- Model of `net.SplitHostPort` for non-bracketed addresses: splits
`host:port` at the single colon, and fails (`none`) when the address has no
colon or more than one. -/
def splitHostPort (hostport : String) : Option (String × String) :=
  if colonCount hostport.data = 1 then
    match splitAtColon hostport.data with
    | some (h, p) => some (String.mk h, String.mk p)
    | none => none
  else none

/-- Whether the last character is a colon (`strings.HasSuffix host ":"`). -/
def lastIsColon : List Char → Bool
  | [] => false
  | [c] => c = ':'
  | _ :: c :: cs => lastIsColon (c :: cs)

/-- Embedding of `exactIP` (component.go:111-122): parse the URL, take the
host part of `host:port` (falling back to the whole authority when the
split fails), and strip one trailing colon. -/
def exactIP (urll : String) : String :=
  let uHost := (urlSchemeHost urll).2
  let host :=
    match splitHostPort uHost with
    | some (h, _) => h
    | none => uHost
  if lastIsColon host.data then host.dropRight 1 else host

/-- Embedding of the secure-transport inference of CheckMinio
(component.go:147): `secure := u.Scheme == "https" || useSSL == "true"`. -/
def secureInferred (scheme useSSL : String) : Bool :=
  scheme == "https" || useSSL == "true"

/-- Outcomes of the external MinIO library calls during one run:
`parseErr` from `url.Parse`, `newClientErr` from `minio.New`,
`healthCheckErr` from `minioClient.HealthCheck` (on success the health
check's cancel function is acquired and released by `defer cancel()`),
`isOffline` the answer of `minioClient.IsOffline()`. -/
structure MinioWorld : Type where
  parseErr : Option String
  newClientErr : Option String
  healthCheckErr : Option String
  isOffline : Bool

/-- Result, inferred secure flag (`none` when the run exits before the
inference at component.go:147) and resource trace of one MinIO checker
run.  The acquired resource is the health check's cancel function. -/
structure MinioRun : Type where
  result : Except Err String
  inferredSecure : Option Bool
  trace : List RAction

/-- Embedding of `CheckMinio` (component.go:125-178).  Mirrors the source
order: enable gate, environment resolution, empty-field configuration
check, endpoint parse, secure inference, client construction, health
check (acquiring the deferred cancel), offline check, and last the
loopback check on `ApiURL` / `SignEndpoint` (component.go:173). -/
def CheckMinio (env : Env) (minioStu : ObjectConf) (w : MinioWorld) : MinioRun :=
  if minioStu.Enable != "minio" then ⟨.ok "", none, []⟩
  else
    let endpoint := getEnv env "MINIO_ENDPOINT" minioStu.Minio.Endpoint
    let accessKeyID := getEnv env "MINIO_ACCESS_KEY_ID" minioStu.Minio.AccessKeyID
    let secretAccessKey :=
      getEnv env "MINIO_SECRET_ACCESS_KEY" minioStu.Minio.SecretAccessKey
    let useSSL := getEnv env "MINIO_USE_SSL" "false"
    if endpoint == "" || accessKeyID == "" || secretAccessKey == "" then
      ⟨.error (ErrConfigWrap "MinIO configuration missing"), none, []⟩
    else
      match w.parseErr with
      | some e =>
          ⟨.error (errsWrap (ErrStr (.transport e)
              ("the endpoint is:" ++ endpoint)) []), none, []⟩
      | none =>
        let u := urlSchemeHost endpoint
        let secure := secureInferred u.1 useSSL
        match w.newClientErr with
        | some e =>
            ⟨.error (errsWrap (.transport e)
                [e ++ ";host:" ++ u.2 ++ ",accessKeyID:" ++ accessKeyID ++
                 ",secretAccessKey:" ++ secretAccessKey ++ ",Secure:" ++
                 (if secure then "true" else "false")]), some secure, []⟩
        | none =>
          let str := "ths addr is:" ++ u.2
          match w.healthCheckErr with
          | some e =>
              ⟨.error (errsWrap (ErrStr (.transport e) str) []), some secure, []⟩
          | none =>
            if w.isOffline then
              ⟨.error (ErrComponentStartWrap ("Minio server is offline;" ++ str)),
               some secure, [.openConn, .closeConn]⟩
            else if exactIP minioStu.ApiURL == "127.0.0.1" ||
                exactIP minioStu.Minio.SignEndpoint == "127.0.0.1" then
              ⟨.error (ErrConfigWrap
                  "apiURL or Minio SignEndpoint endpoint contain 127.0.0.1"),
               some secure, [.openConn, .closeConn]⟩
            else
              ⟨.ok str, some secure, [.openConn, .closeConn]⟩

/-- The Redis client constructed by CheckRedis: a cluster client over the
full address list, or a single-node client over one address. -/
inductive RedisClientKind : Type where
  | cluster (addrs : List String) (username password : String)
  | single (addr : String) (username password : String)
deriving DecidableEq

/-- Outcome of the external Redis ping during one run. -/
structure RedisWorld : Type where
  pingErr : Option String

/-- Result, constructed client, number of pings issued, and resource trace
of one Redis checker run. -/
structure RedisRun : Type where
  result : Except Err String
  client : RedisClientKind
  pings : Nat
  trace : List RAction

/-- Embedding of `CheckRedis` (component.go:181-216): split the resolved
address on commas, build a cluster client when more than one address
results and a single-node client otherwise, `defer redisClient.Close()`,
and issue exactly one ping.  (`strings.Split` never returns an empty
slice, so `redisAddresses[0]` is its head.) -/
def CheckRedis (env : Env) (redisStu : RedisConf) (w : RedisWorld) : RedisRun :=
  let address := getEnv env "REDIS_ADDRESS" (String.intercalate "," redisStu.Address)
  let username := getEnv env "REDIS_USERNAME" redisStu.Username
  let password := getEnv env "REDIS_PASSWORD" redisStu.Password
  let redisAddresses := stringsSplit address ','
  let redisClient :=
    if redisAddresses.length > 1 then
      RedisClientKind.cluster redisAddresses username password
    else
      RedisClientKind.single (redisAddresses.headD "") username password
  let str := "the addr is:" ++ String.intercalate "," redisAddresses
  match w.pingErr with
  | some e =>
      ⟨.error (errsWrap (ErrStr (.transport e) str) []), redisClient, 1,
       [.openConn, .closeConn]⟩
  | none => ⟨.ok str, redisClient, 1, [.openConn, .closeConn]⟩

/-- A ZooKeeper session event as read by CheckZookeeper: only its `State`
field is inspected.  States are the `go-zookeeper` integer codes. -/
structure ZkEvent : Type where
  State : Int
deriving DecidableEq

/-- `zk.StateConnected` of go-zookeeper (value 100). -/
def StateConnected : Int := 100

/-- Outcomes of the external ZooKeeper library calls during one run:
`connectErr` from `zk.Connect`; `events` the events delivered on the event
channel before the 5-second timeout fires (an event arriving only after
the timeout is not in this list); `authErr` from `c.AddAuth` when it is
invoked. -/
structure ZkWorld : Type where
  connectErr : Option String
  events : List ZkEvent
  authErr : Option String

/-- The select loop of CheckZookeeper (component.go:236-246): pull events
until one has `State == zk.StateConnected` (`true`), or the events run out
before the timeout fires (`false`). -/
def zkHasConnected : List ZkEvent → Bool
  | [] => false
  | e :: rest => if e.State == StateConnected then true else zkHasConnected rest

/-- Result and resource trace of one ZooKeeper checker run. -/
structure ZkRun : Type where
  result : Except Err String
  trace : List RAction

/-- Embedding of `CheckZookeeper` (component.go:219-258).  On a successful
`zk.Connect` the connection handle is acquired.  `defer c.Close()` is only
registered after the `Connected:` label (component.go:248), so the
timeout return at component.go:244 — taken when no connected-state event
arrives within 5 seconds — exits without releasing the handle; the timeout
error wraps `errors.New("timeout waiting for Zookeeper connection")` with
the space-joined configured `zkStu.ZkAddr` as context, while the other
error paths use the comma-joined resolved address. -/
def CheckZookeeper (env : Env) (zkStu : ZookeeperConf) (w : ZkWorld) : ZkRun :=
  let _schema := getEnv env "ZOOKEEPER_SCHEMA" "digest"
  let address := getEnv env "ZOOKEEPER_ADDRESS" (String.intercalate "," zkStu.ZkAddr)
  let username := getEnv env "ZOOKEEPER_USERNAME" zkStu.Username
  let password := getEnv env "ZOOKEEPER_PASSWORD" zkStu.Password
  let _zookeeperAddresses := stringsSplit address ','
  let str := "the addr is:" ++ address
  match w.connectErr with
  | some e => ⟨.error (errsWrap (ErrStr (.transport e) str) []), []⟩
  | none =>
    if zkHasConnected w.events then
      if username != "" && password != "" then
        match w.authErr with
        | some e =>
            ⟨.error (errsWrap (ErrStr (.transport e) str) []),
             [.openConn, .closeConn]⟩
        | none => ⟨.ok str, [.openConn, .closeConn]⟩
      else ⟨.ok str, [.openConn, .closeConn]⟩
    else
      ⟨.error (errsWrap (.new "timeout waiting for Zookeeper connection")
          ["Zookeeper Addr: " ++ String.intercalate " " zkStu.ZkAddr]),
       [.openConn]⟩

/-- Embedding of `IsTopicPresent` (component.go:310-317): linear scan with
exact string equality. -/
def IsTopicPresent (topic : String) (topics : List String) : Bool :=
  match topics with
  | [] => false
  | t :: rest => if t == topic then true else IsTopicPresent topic rest

/-- The required-topics loop of CheckKafka (component.go:300-304): the
first required topic not present in the live list, in order, or `none`
when all are present. -/
def firstMissingTopic (required topics : List String) : Option String :=
  match required with
  | [] => none
  | r :: rest =>
      if !(IsTopicPresent r topics) then some r else firstMissingTopic rest topics

/-- Outcomes of the external Kafka library calls during one run:
`newClientErr` from `sarama.NewClient`, `topics` the answer of
`kafkaClient.Topics()`. -/
structure KafkaWorld : Type where
  newClientErr : Option String
  topics : Except String (List String)

/-- Result and resource trace of one Kafka checker run. -/
structure KafkaRun : Type where
  result : Except Err String
  trace : List RAction

/-- Embedding of `CheckKafka` (component.go:261-307): build the client
(`defer kafkaClient.Close()` on success), list topics (note: this failure
is wrapped with no address context, component.go:291), then check the
three required topics in the fixed order MsgToMongo, MsgToPush,
LatestMsgToRedis, failing on the first missing one. -/
def CheckKafka (env : Env) (kafkaStu : KafkaConf) (w : KafkaWorld) : KafkaRun :=
  let _username := getEnv env "KAFKA_USERNAME" kafkaStu.Username
  let _password := getEnv env "KAFKA_PASSWORD" kafkaStu.Password
  let address := getEnv env "KAFKA_ADDRESS" (String.intercalate "," kafkaStu.Addr)
  let _kafkaAddresses := stringsSplit address ','
  let str := "the addr is:" ++ address
  match w.newClientErr with
  | some e => ⟨.error (errsWrap (ErrStr (.transport e) str) []), []⟩
  | none =>
    match w.topics with
    | .error e => ⟨.error (errsWrap (.transport e) []), [.openConn, .closeConn]⟩
    | .ok topics =>
      let requiredTopics :=
        [kafkaStu.MsgToMongo.Topic, kafkaStu.MsgToPush.Topic,
         kafkaStu.LatestMsgToRedis.Topic]
      match firstMissingTopic requiredTopics topics with
      | some missing =>
          ⟨.error (ErrComponentStartWrap ("Kafka doesn't contain topic: " ++ missing)),
           [.openConn, .closeConn]⟩
      | none => ⟨.ok str, [.openConn, .closeConn]⟩

/-- A well-closed resource trace: either nothing was acquired, or the one
acquired resource was released exactly once. -/
def traceOK (t : List RAction) : Prop :=
  t = [] ∨ t = [.openConn, .closeConn]

/-! ## Helper lemmas -/

theorem updateEnv_apply_self (env : Env) (k v : String) :
    updateEnv env k v k = some v := if_pos rfl

theorem updateEnv_apply_ne (env : Env) (k v x : String) (h : x ≠ k) :
    updateEnv env k v x = env x := if_neg h

theorem isTopicPresent_iff (s : String) (l : List String) :
    IsTopicPresent s l = true ↔ s ∈ l := by
  induction l with
  | nil => simp [IsTopicPresent]
  | cons t rest ih =>
      by_cases h : t = s
      · subst h
        simp [IsTopicPresent]
      · rw [IsTopicPresent]
        simp [h, ih, Ne.symm h]

/-! ## Claim theorems -/

/-- Claim C4: for every (environment key, config value) pair, if the
environment variable is set — including to the empty string — the resolved
value equals the environment value; if it is unset, the resolved value
equals the config value unchanged.  (`getEnv` is a total function: no
failure mode.) -/
theorem getEnv_resolution (env : Env) (key fallback : String) :
    (∀ v, env key = some v → getEnv env key fallback = v) ∧
    (env key = none → getEnv env key fallback = fallback) ∧
    getEnv (updateEnv env key "") key fallback = "" := by
  refine ⟨fun v h => ?_, fun h => ?_, ?_⟩
  · simp [getEnv, h]
  · simp [getEnv, h]
  · simp [getEnv, updateEnv]

/-- Witness for C4 at concrete inputs: a set variable (even one set to the
empty string) wins, an unset one falls back. -/
theorem getEnv_resolution_witness :
    getEnv (updateEnv envEmpty "K" "v") "K" "fb" = "v" ∧
    getEnv envEmpty "K" "fb" = "fb" ∧
    getEnv (updateEnv envEmpty "K" "") "K" "fb" = "" :=
  ⟨(getEnv_resolution (updateEnv envEmpty "K" "v") "K" "fb").1 "v" rfl,
   (getEnv_resolution envEmpty "K" "fb").2.1 rfl,
   (getEnv_resolution envEmpty "K" "fb").2.2⟩

/-- Claim C9: the Mongo URI includes the `username:password@` credential
segment iff both username and password are non-empty; with either empty the
URI carries no credentials; in both cases it carries the comma-joined
address list, the database name and the maxPoolSize parameter. -/
theorem buildMongoURI_credentials (mongoStu : MongoConf) :
    (mongoStu.Username ≠ "" ∧ mongoStu.Password ≠ "" →
      buildMongoURI mongoStu =
        "mongodb://" ++ mongoStu.Username ++ ":" ++ mongoStu.Password ++ "@" ++
          String.intercalate "," mongoStu.Address ++ "/" ++ mongoStu.Database ++
          "?maxPoolSize=" ++ toString mongoStu.MaxPoolSize) ∧
    (mongoStu.Username = "" ∨ mongoStu.Password = "" →
      buildMongoURI mongoStu =
        "mongodb://" ++ String.intercalate "," mongoStu.Address ++ "/" ++
          mongoStu.Database ++ "?maxPoolSize=" ++ toString mongoStu.MaxPoolSize) := by
  constructor
  · rintro ⟨hu, hp⟩
    simp [buildMongoURI, hu, hp]
  · rintro (h | h) <;> simp [buildMongoURI, h]

/-- Witness for C9 at concrete inputs: both credentials present versus an
empty password. -/
theorem buildMongoURI_credentials_witness :
    buildMongoURI ⟨["m1:27017", "m2:27017"], "u1", "p1", "db", 100⟩ =
      "mongodb://u1:p1@m1:27017,m2:27017/db?maxPoolSize=100" ∧
    buildMongoURI ⟨["m1:27017"], "u1", "", "db", 100⟩ =
      "mongodb://m1:27017/db?maxPoolSize=100" :=
  ⟨((buildMongoURI_credentials ⟨["m1:27017", "m2:27017"], "u1", "p1", "db", 100⟩).1
      ⟨by decide, by decide⟩).trans rfl,
   ((buildMongoURI_credentials ⟨["m1:27017"], "u1", "", "db", 100⟩).2
      (Or.inr rfl)).trans rfl⟩

/-- Claim C5 counterexample: with config username "u1" the per-field
environment variables have no effect on the Mongo connection URI — setting
MONGO_ADDRESS, MONGO_USERNAME, MONGO_PASSWORD, MONGO_DATABASE or
MONGO_MAX_POOL_SIZE leaves the URI identical to the no-override URI, still
carrying "u1"; so the Mongo checker's fields are not individually
overridable. -/
theorem mongo_field_override_counterexample :
    mongoURIOf (updateEnv envEmpty "MONGO_ADDRESS" "o:1")
        ⟨["m:27017"], "u1", "p1", "db", 100⟩ =
      "mongodb://u1:p1@m:27017/db?maxPoolSize=100" ∧
    mongoURIOf (updateEnv envEmpty "MONGO_USERNAME" "u2")
        ⟨["m:27017"], "u1", "p1", "db", 100⟩ =
      "mongodb://u1:p1@m:27017/db?maxPoolSize=100" ∧
    mongoURIOf (updateEnv envEmpty "MONGO_PASSWORD" "p2")
        ⟨["m:27017"], "u1", "p1", "db", 100⟩ =
      "mongodb://u1:p1@m:27017/db?maxPoolSize=100" ∧
    mongoURIOf (updateEnv envEmpty "MONGO_DATABASE" "db2")
        ⟨["m:27017"], "u1", "p1", "db", 100⟩ =
      "mongodb://u1:p1@m:27017/db?maxPoolSize=100" ∧
    mongoURIOf (updateEnv envEmpty "MONGO_MAX_POOL_SIZE" "7")
        ⟨["m:27017"], "u1", "p1", "db", 100⟩ =
      "mongodb://u1:p1@m:27017/db?maxPoolSize=100" ∧
    mongoURIOf envEmpty ⟨["m:27017"], "u1", "p1", "db", 100⟩ =
      "mongodb://u1:p1@m:27017/db?maxPoolSize=100" :=
  ⟨rfl, rfl, rfl, rfl, rfl, rfl⟩

/-- Claim C5 (amended): the Mongo checker's input fields are not
individually overridable — the environment is consulted only through the
single variable MONGO_URI, which when set replaces the entire connection
URI; when it is unset every field comes from the config unchanged, via
`buildMongoURI`. -/
theorem mongo_uri_override_only (env : Env) (mongoStu : MongoConf) (k v : String) :
    (k ≠ "MONGO_URI" →
      mongoURIOf (updateEnv env k v) mongoStu = mongoURIOf env mongoStu) ∧
    mongoURIOf (updateEnv env "MONGO_URI" v) mongoStu = v ∧
    (env "MONGO_URI" = none → mongoURIOf env mongoStu = buildMongoURI mongoStu) := by
  refine ⟨fun hk => ?_, ?_, fun h => ?_⟩
  · unfold mongoURIOf getEnv
    rw [updateEnv_apply_ne env k v _ (Ne.symm hk)]
  · unfold mongoURIOf getEnv
    rw [updateEnv_apply_self]
  · unfold mongoURIOf getEnv
    rw [h]

/-- Witness for the amended C5 at concrete inputs: a foreign key changes
nothing, MONGO_URI replaces the whole URI, and absent any override the URI
is built from the config. -/
theorem mongo_uri_override_only_witness :
    mongoURIOf (updateEnv envEmpty "REDIS_ADDRESS" "r:6379")
        ⟨["m:27017"], "u1", "p1", "db", 100⟩ =
      mongoURIOf envEmpty ⟨["m:27017"], "u1", "p1", "db", 100⟩ ∧
    mongoURIOf (updateEnv envEmpty "MONGO_URI" "mongodb://whole")
        ⟨["m:27017"], "u1", "p1", "db", 100⟩ = "mongodb://whole" ∧
    mongoURIOf envEmpty ⟨["m:27017"], "u1", "p1", "db", 100⟩ =
      buildMongoURI ⟨["m:27017"], "u1", "p1", "db", 100⟩ :=
  ⟨(mongo_uri_override_only envEmpty ⟨["m:27017"], "u1", "p1", "db", 100⟩
      "REDIS_ADDRESS" "r:6379").1 (by decide),
   (mongo_uri_override_only envEmpty ⟨["m:27017"], "u1", "p1", "db", 100⟩
      "MONGO_URI" "mongodb://whole").2.1,
   (mongo_uri_override_only envEmpty ⟨["m:27017"], "u1", "p1", "db", 100⟩
      "X" "y").2.2 rfl⟩

/-- Claim C6: the MinIO secure-transport flag is inferred true iff the
parsed URL scheme is "https" or the resolved SSL flag string equals "true";
in particular with scheme "https" and SSL flag "false" it is still true,
and a full checker run on an https endpoint with the default SSL flag
"false" records an inferred secure flag of true. -/
theorem minio_secure_inference :
    (∀ scheme useSSL : String,
      secureInferred scheme useSSL = true ↔ (scheme = "https" ∨ useSSL = "true")) ∧
    secureInferred "https" "false" = true ∧
    urlSchemeHost "https://minio.example.com:9000" = ("https", "minio.example.com:9000") ∧
    (CheckMinio envEmpty
        ⟨"minio", "http://api.example.com:10002",
         ⟨"https://minio.example.com:9000", "ak", "sk", "http://sign.example.com:10002"⟩⟩
        ⟨none, none, none, false⟩).inferredSecure = some true := by
  refine ⟨fun scheme useSSL => ?_, rfl, rfl, rfl⟩
  simp [secureInferred]

/-- Witness for C6 at concrete inputs: each disjunct alone forces the
secure flag. -/
theorem minio_secure_inference_witness :
    secureInferred "https" "false" = true ∧ secureInferred "http" "true" = true :=
  ⟨(minio_secure_inference.1 "https" "false").mpr (Or.inl rfl),
   (minio_secure_inference.1 "http" "true").mpr (Or.inr rfl)⟩

/-- Claim C8: the resolved Redis address string is split on commas; more
than one element yields a cluster client over the full list, otherwise a
single-node client over the lone element; exactly one ping is issued, and
the run has exactly one success-or-failure outcome, decided by that ping. -/
theorem redis_topology_selection (env : Env) (redisStu : RedisConf) (w : RedisWorld) :
    ((stringsSplit (getEnv env "REDIS_ADDRESS"
        (String.intercalate "," redisStu.Address)) ',').length > 1 →
      (CheckRedis env redisStu w).client =
        .cluster (stringsSplit (getEnv env "REDIS_ADDRESS"
            (String.intercalate "," redisStu.Address)) ',')
          (getEnv env "REDIS_USERNAME" redisStu.Username)
          (getEnv env "REDIS_PASSWORD" redisStu.Password)) ∧
    (¬ (stringsSplit (getEnv env "REDIS_ADDRESS"
        (String.intercalate "," redisStu.Address)) ',').length > 1 →
      (CheckRedis env redisStu w).client =
        .single ((stringsSplit (getEnv env "REDIS_ADDRESS"
            (String.intercalate "," redisStu.Address)) ',').headD "")
          (getEnv env "REDIS_USERNAME" redisStu.Username)
          (getEnv env "REDIS_PASSWORD" redisStu.Password)) ∧
    (CheckRedis env redisStu w).pings = 1 ∧
    (w.pingErr = none → (CheckRedis env redisStu w).result =
      .ok ("the addr is:" ++ String.intercalate ","
        (stringsSplit (getEnv env "REDIS_ADDRESS"
          (String.intercalate "," redisStu.Address)) ','))) ∧
    (∀ e, w.pingErr = some e → (CheckRedis env redisStu w).result =
      .error (errsWrap (ErrStr (.transport e)
        ("the addr is:" ++ String.intercalate ","
          (stringsSplit (getEnv env "REDIS_ADDRESS"
            (String.intercalate "," redisStu.Address)) ','))) [])) := by
  refine ⟨fun h => ?_, fun h => ?_, ?_, fun h => ?_, fun e h => ?_⟩
  · cases hp : w.pingErr <;> simp [CheckRedis, hp, h]
  · cases hp : w.pingErr <;> simp [CheckRedis, hp, h]
  · cases hp : w.pingErr <;> simp [CheckRedis, hp]
  · simp [CheckRedis, h]
  · simp [CheckRedis, h]

/-- Witness for C8 at concrete inputs: the two-address string yields a
cluster client, the one-address string a single-node client, and one
successful ping yields the success outcome. -/
theorem redis_topology_selection_witness :
    (CheckRedis envEmpty ⟨["a:6379", "b:6379"], "", ""⟩ ⟨none⟩).client =
      .cluster ["a:6379", "b:6379"] "" "" ∧
    (CheckRedis envEmpty ⟨["a:6379"], "", ""⟩ ⟨none⟩).client = .single "a:6379" "" "" ∧
    (CheckRedis envEmpty ⟨["a:6379"], "", ""⟩ ⟨none⟩).result = .ok "the addr is:a:6379" :=
  ⟨((redis_topology_selection envEmpty ⟨["a:6379", "b:6379"], "", ""⟩ ⟨none⟩).1
      (by decide)).trans rfl,
   ((redis_topology_selection envEmpty ⟨["a:6379"], "", ""⟩ ⟨none⟩).2.1
      (by decide)).trans rfl,
   ((redis_topology_selection envEmpty ⟨["a:6379"], "", ""⟩ ⟨none⟩).2.2.2.1
      rfl).trans rfl⟩

/-- Claim C10: with an empty config address list and no environment
override, the resolved address string is empty, splitting it on commas
yields one empty-string element, so a single-node client with an empty
address is constructed (not a cluster client, and with no early
configuration error); the outcome is exactly what the ping returns. -/
theorem redis_empty_address_single (env : Env) (redisStu : RedisConf) (w : RedisWorld)
    (hcfg : redisStu.Address = []) (henv : env "REDIS_ADDRESS" = none) :
    stringsSplit "" ',' = [""] ∧
    (CheckRedis env redisStu w).client =
      .single "" (getEnv env "REDIS_USERNAME" redisStu.Username)
        (getEnv env "REDIS_PASSWORD" redisStu.Password) ∧
    (CheckRedis env redisStu w).pings = 1 ∧
    (w.pingErr = none → (CheckRedis env redisStu w).result = .ok "the addr is:") ∧
    (∀ e, w.pingErr = some e → (CheckRedis env redisStu w).result =
      .error (errsWrap (ErrStr (.transport e) "the addr is:") [])) := by
  have haddr : getEnv env "REDIS_ADDRESS" (String.intercalate "," redisStu.Address) = "" := by
    rw [hcfg, show String.intercalate "," [] = "" from rfl]
    simp [getEnv, henv]
  have hsplit : stringsSplit "" ',' = [""] := rfl
  have hstr : "the addr is:" ++ String.intercalate "," [""] = "the addr is:" := rfl
  refine ⟨rfl, ?_, ?_, fun h => ?_, fun e h => ?_⟩
  · cases hp : w.pingErr <;> simp [CheckRedis, hp, haddr, hsplit]
  · cases hp : w.pingErr <;> simp [CheckRedis, hp]
  · simp [CheckRedis, h, haddr, hsplit, hstr]
  · simp [CheckRedis, h, haddr, hsplit, hstr]

/-- Witness for C10 at concrete inputs: empty config address, no override,
successful ping against the empty-address single-node client. -/
theorem redis_empty_address_single_witness :
    (CheckRedis envEmpty ⟨[], "u", "p"⟩ ⟨none⟩).client = .single "" "u" "p" ∧
    (CheckRedis envEmpty ⟨[], "u", "p"⟩ ⟨none⟩).result = .ok "the addr is:" :=
  ⟨((redis_empty_address_single envEmpty ⟨[], "u", "p"⟩ ⟨none⟩ rfl rfl).2.1).trans rfl,
   (redis_empty_address_single envEmpty ⟨[], "u", "p"⟩ ⟨none⟩ rfl rfl).2.2.2.1 rfl⟩

theorem isTopicPresent_eq_decide (s : String) (l : List String) :
    IsTopicPresent s l = decide (s ∈ l) := by
  induction l with
  | nil => simp [IsTopicPresent]
  | cons t rest ih =>
      rw [IsTopicPresent]
      by_cases h : t = s
      · subst h
        simp
      · simp [h, ih, Ne.symm h]

/-- Claim C3: with a live topic list in hand, the Kafka check succeeds iff
all three required topics (MsgToMongo, MsgToPush, LatestMsgToRedis) are
present in the live list by exact string membership (order-independent);
otherwise it fails reporting exactly the first missing required topic in
that fixed order, without aggregating the rest. -/
theorem kafka_required_topics (env : Env) (kafkaStu : KafkaConf) (w : KafkaWorld)
    (live : List String) (hc : w.newClientErr = none) (ht : w.topics = .ok live) :
    ((CheckKafka env kafkaStu w).result =
        .ok ("the addr is:" ++ getEnv env "KAFKA_ADDRESS"
          (String.intercalate "," kafkaStu.Addr)) ↔
      (kafkaStu.MsgToMongo.Topic ∈ live ∧ kafkaStu.MsgToPush.Topic ∈ live ∧
        kafkaStu.LatestMsgToRedis.Topic ∈ live)) ∧
    (∀ t, firstMissingTopic [kafkaStu.MsgToMongo.Topic, kafkaStu.MsgToPush.Topic,
        kafkaStu.LatestMsgToRedis.Topic] live = some t →
      (CheckKafka env kafkaStu w).result =
        .error (ErrComponentStartWrap ("Kafka doesn't contain topic: " ++ t)) ∧
      t ∉ live ∧
      (t = kafkaStu.MsgToMongo.Topic ∨
        (kafkaStu.MsgToMongo.Topic ∈ live ∧
          (t = kafkaStu.MsgToPush.Topic ∨
            (kafkaStu.MsgToPush.Topic ∈ live ∧
              t = kafkaStu.LatestMsgToRedis.Topic))))) ∧
    (firstMissingTopic [kafkaStu.MsgToMongo.Topic, kafkaStu.MsgToPush.Topic,
        kafkaStu.LatestMsgToRedis.Topic] live = none ↔
      (kafkaStu.MsgToMongo.Topic ∈ live ∧ kafkaStu.MsgToPush.Topic ∈ live ∧
        kafkaStu.LatestMsgToRedis.Topic ∈ live)) ∧
    (∀ s l, IsTopicPresent s l = true ↔ s ∈ l) := by
  have hres : (CheckKafka env kafkaStu w).result =
      (match firstMissingTopic [kafkaStu.MsgToMongo.Topic, kafkaStu.MsgToPush.Topic,
          kafkaStu.LatestMsgToRedis.Topic] live with
       | some missing =>
           .error (ErrComponentStartWrap ("Kafka doesn't contain topic: " ++ missing))
       | none =>
           .ok ("the addr is:" ++ getEnv env "KAFKA_ADDRESS"
             (String.intercalate "," kafkaStu.Addr))) := by
    simp [CheckKafka, hc, ht]
    cases firstMissingTopic [kafkaStu.MsgToMongo.Topic, kafkaStu.MsgToPush.Topic,
        kafkaStu.LatestMsgToRedis.Topic] live <;> rfl
  have key : firstMissingTopic [kafkaStu.MsgToMongo.Topic, kafkaStu.MsgToPush.Topic,
      kafkaStu.LatestMsgToRedis.Topic] live =
        (if kafkaStu.MsgToMongo.Topic ∈ live then
          (if kafkaStu.MsgToPush.Topic ∈ live then
            (if kafkaStu.LatestMsgToRedis.Topic ∈ live then none
             else some kafkaStu.LatestMsgToRedis.Topic)
           else some kafkaStu.MsgToPush.Topic)
         else some kafkaStu.MsgToMongo.Topic) := by
    by_cases ha : kafkaStu.MsgToMongo.Topic ∈ live <;>
      by_cases hb : kafkaStu.MsgToPush.Topic ∈ live <;>
      by_cases hcc : kafkaStu.LatestMsgToRedis.Topic ∈ live <;>
      simp [firstMissingTopic, isTopicPresent_eq_decide, ha, hb, hcc]
  refine ⟨?_, fun t hfm => ?_, ?_, isTopicPresent_iff⟩
  · rw [hres, key]
    by_cases ha : kafkaStu.MsgToMongo.Topic ∈ live <;>
      by_cases hb : kafkaStu.MsgToPush.Topic ∈ live <;>
      by_cases hcc : kafkaStu.LatestMsgToRedis.Topic ∈ live <;>
      simp [ha, hb, hcc]
  · rw [key] at hfm
    rw [hres, key]
    by_cases ha : kafkaStu.MsgToMongo.Topic ∈ live <;>
      by_cases hb : kafkaStu.MsgToPush.Topic ∈ live <;>
      by_cases hcc : kafkaStu.LatestMsgToRedis.Topic ∈ live <;>
      simp [ha, hb, hcc] at hfm ⊢ <;> subst hfm <;> simp [ha, hb, hcc]
  · rw [key]
    by_cases ha : kafkaStu.MsgToMongo.Topic ∈ live <;>
      by_cases hb : kafkaStu.MsgToPush.Topic ∈ live <;>
      by_cases hcc : kafkaStu.LatestMsgToRedis.Topic ∈ live <;>
      simp [ha, hb, hcc]

/-- Witness for C3 at concrete inputs: live topics t1, t2 with required
topics t1, t2, t3 fail reporting exactly t3; all three present succeeds. -/
theorem kafka_required_topics_witness :
    (CheckKafka envEmpty ⟨["k:9092"], "", "", ⟨"t1"⟩, ⟨"t2"⟩, ⟨"t3"⟩⟩
        ⟨none, .ok ["t1", "t2"]⟩).result =
      .error (ErrComponentStartWrap "Kafka doesn't contain topic: t3") ∧
    (CheckKafka envEmpty ⟨["k:9092"], "", "", ⟨"t1"⟩, ⟨"t2"⟩, ⟨"t3"⟩⟩
        ⟨none, .ok ["t3", "t2", "t1"]⟩).result = .ok "the addr is:k:9092" :=
  ⟨(((kafka_required_topics envEmpty ⟨["k:9092"], "", "", ⟨"t1"⟩, ⟨"t2"⟩, ⟨"t3"⟩⟩
      ⟨none, .ok ["t1", "t2"]⟩ ["t1", "t2"] rfl rfl).2.1 "t3" (by decide)).1).trans rfl,
   (((kafka_required_topics envEmpty ⟨["k:9092"], "", "", ⟨"t1"⟩, ⟨"t2"⟩, ⟨"t3"⟩⟩
      ⟨none, .ok ["t3", "t2", "t1"]⟩ ["t3", "t2", "t1"] rfl rfl).1).mpr
      (by simp)).trans rfl⟩

/-- Claim C2: when `zk.Connect` succeeds but no connected-state event
arrives on the event stream within the 5-second bound, the checker returns
the timeout failure, whose context carries the space-joined original
configured address list `zkStu.ZkAddr` from the config struct; this error
is distinct from every immediate connect failure (which wraps the library
error with the environment-resolved address via `ErrStr`). -/
theorem zookeeper_timeout_error_context (env : Env) (zkStu : ZookeeperConf)
    (w : ZkWorld) (hc : w.connectErr = none) (hev : zkHasConnected w.events = false) :
    (CheckZookeeper env zkStu w).result =
      .error (errsWrap (.new "timeout waiting for Zookeeper connection")
        ["Zookeeper Addr: " ++ String.intercalate " " zkStu.ZkAddr]) ∧
    (∀ e s, errsWrap (.new "timeout waiting for Zookeeper connection")
        ["Zookeeper Addr: " ++ String.intercalate " " zkStu.ZkAddr] ≠
      errsWrap (ErrStr (.transport e) s) []) := by
  constructor
  · simp [CheckZookeeper, hc, hev]
  · intro e s
    simp [errsWrap, ErrStr]

/-- Witness for C2 at concrete inputs: the environment override resolves
the connection address to envB:2181, a disconnected event (state 0)
arrives but no connected one, and the timeout error reports the configured
addresses confA:2181 confC:2181, not the resolved one. -/
theorem zookeeper_timeout_error_context_witness :
    (CheckZookeeper (updateEnv envEmpty "ZOOKEEPER_ADDRESS" "envB:2181")
        ⟨["confA:2181", "confC:2181"], "", ""⟩ ⟨none, [⟨0⟩], none⟩).result =
      .error (errsWrap (.new "timeout waiting for Zookeeper connection")
        ["Zookeeper Addr: confA:2181 confC:2181"]) :=
  ((zookeeper_timeout_error_context (updateEnv envEmpty "ZOOKEEPER_ADDRESS" "envB:2181")
      ⟨["confA:2181", "confC:2181"], "", ""⟩ ⟨none, [⟨0⟩], none⟩ rfl rfl).1).trans rfl

/-- Claim C7 counterexample: with the API URL resolving to the loopback
address 127.0.0.1 but the store reporting itself offline, CheckMinio
returns the component-start error — not the configuration error — because
the loopback validation at component.go:173 runs only after the
connectivity checks; so a loopback API URL does not always produce a
configuration error. -/
theorem minio_loopback_offline_counterexample :
    (CheckMinio envEmpty
        ⟨"minio", "http://127.0.0.1:9000",
         ⟨"http://minio.example.com:9000", "ak", "sk", "http://sign.example.com:10002"⟩⟩
        ⟨none, none, none, true⟩).result =
      .error (ErrComponentStartWrap
        "Minio server is offline;ths addr is:minio.example.com:9000") ∧
    exactIP "http://127.0.0.1:9000" = "127.0.0.1" ∧
    (ErrComponentStartWrap
        "Minio server is offline;ths addr is:minio.example.com:9000").isConfigErr = false :=
  ⟨rfl, rfl, rfl⟩

/-- Claim C7 (amended): when the enable gate and the non-empty-field
configuration check pass and every connectivity probe succeeds (endpoint
parses, client construction succeeds, health check starts, store online),
a loopback API URL or sign endpoint makes the check fail with the
configuration error — which is neither a connectivity nor a
component-start error; both validations are performed, and each can fail
while the other passes, but a connectivity failure preempts the loopback
configuration check.  The final conjunct shows the connectivity side
failing (offline store) while the loopback configuration is clean. -/
theorem minio_loopback_config_error (env : Env) (minioStu : ObjectConf) (w : MinioWorld)
    (hen : minioStu.Enable = "minio")
    (hep : getEnv env "MINIO_ENDPOINT" minioStu.Minio.Endpoint ≠ "")
    (hak : getEnv env "MINIO_ACCESS_KEY_ID" minioStu.Minio.AccessKeyID ≠ "")
    (hsk : getEnv env "MINIO_SECRET_ACCESS_KEY" minioStu.Minio.SecretAccessKey ≠ "")
    (hpe : w.parseErr = none) (hnc : w.newClientErr = none)
    (hhc : w.healthCheckErr = none) (hoff : w.isOffline = false)
    (hloop : exactIP minioStu.ApiURL = "127.0.0.1" ∨
      exactIP minioStu.Minio.SignEndpoint = "127.0.0.1") :
    (CheckMinio env minioStu w).result =
      .error (ErrConfigWrap "apiURL or Minio SignEndpoint endpoint contain 127.0.0.1") ∧
    (ErrConfigWrap "apiURL or Minio SignEndpoint endpoint contain 127.0.0.1").isConfigErr
      = true ∧
    (ErrConfigWrap
        "apiURL or Minio SignEndpoint endpoint contain 127.0.0.1").isComponentStartErr
      = false ∧
    (CheckMinio envEmpty
        ⟨"minio", "http://api.example.com:10002",
         ⟨"http://minio.example.com:9000", "ak", "sk", "http://sign.example.com:10002"⟩⟩
        ⟨none, none, none, true⟩).result =
      .error (ErrComponentStartWrap
        "Minio server is offline;ths addr is:minio.example.com:9000") := by
  refine ⟨?_, rfl, rfl, rfl⟩
  rcases hloop with h | h <;>
    simp [CheckMinio, hen, hep, hak, hsk, hpe, hnc, hhc, hoff, h]

/-- Witness for the amended C7 at concrete inputs: loopback API URL,
reachable online store, configuration error results. -/
theorem minio_loopback_config_error_witness :
    (CheckMinio envEmpty
        ⟨"minio", "http://127.0.0.1:9000",
         ⟨"http://minio.example.com:9000", "ak", "sk", "http://sign.example.com:10002"⟩⟩
        ⟨none, none, none, false⟩).result =
      .error (ErrConfigWrap "apiURL or Minio SignEndpoint endpoint contain 127.0.0.1") :=
  (minio_loopback_config_error envEmpty
      ⟨"minio", "http://127.0.0.1:9000",
       ⟨"http://minio.example.com:9000", "ak", "sk", "http://sign.example.com:10002"⟩⟩
      ⟨none, none, none, false⟩ rfl (by decide) (by decide) (by decide) rfl rfl rfl rfl
      (Or.inl rfl)).1

/-- Claim C1 counterexample: a ZooKeeper run where `zk.Connect` succeeds
(the handle is acquired) and only a non-connected event (state 0) arrives
before the 5-second timeout: the checker returns the timeout failure with
the connection opened once and closed zero times — the handle is leaked,
because `defer c.Close()` is registered only after the `Connected:` label. -/
theorem checkZookeeper_timeout_no_close :
    (CheckZookeeper envEmpty ⟨["confA:2181"], "", ""⟩ ⟨none, [⟨0⟩], none⟩).trace =
      [.openConn] ∧
    List.count .openConn
      (CheckZookeeper envEmpty ⟨["confA:2181"], "", ""⟩ ⟨none, [⟨0⟩], none⟩).trace = 1 ∧
    List.count .closeConn
      (CheckZookeeper envEmpty ⟨["confA:2181"], "", ""⟩ ⟨none, [⟨0⟩], none⟩).trace = 0 ∧
    (CheckZookeeper envEmpty ⟨["confA:2181"], "", ""⟩ ⟨none, [⟨0⟩], none⟩).result =
      .error (errsWrap (.new "timeout waiting for Zookeeper connection")
        ["Zookeeper Addr: confA:2181"]) :=
  ⟨rfl, rfl, rfl, rfl⟩

/-- Claim C1 (amended): for every checker and every input, any
connection/client the checker successfully opens is closed exactly once
before it returns — on success, typed failure and timeout paths — with one
exception: when the ZooKeeper checker's 5-second connect wait times out
(connect succeeded, no connected-state event), it returns the timeout
failure without closing the connection handle. -/
theorem close_discipline (env : Env)
    (mongoStu : MongoConf) (mw : MongoWorld)
    (minioStu : ObjectConf) (ow : MinioWorld)
    (redisStu : RedisConf) (wr : RedisWorld)
    (zkStu : ZookeeperConf) (zw : ZkWorld)
    (kafkaStu : KafkaConf) (kw : KafkaWorld) :
    traceOK (CheckMongo env mongoStu mw).trace ∧
    traceOK (CheckMinio env minioStu ow).trace ∧
    traceOK (CheckRedis env redisStu wr).trace ∧
    traceOK (CheckKafka env kafkaStu kw).trace ∧
    (traceOK (CheckZookeeper env zkStu zw).trace ∨
      ((CheckZookeeper env zkStu zw).trace = [.openConn] ∧
        zw.connectErr = none ∧ zkHasConnected zw.events = false)) := by
  refine ⟨?_, ?_, ?_, ?_, ?_⟩
  · cases hc : mw.connectErr <;> cases hp : mw.pingErr <;>
      simp [CheckMongo, traceOK, hc, hp]
  · simp only [CheckMinio, traceOK]
    repeat' split
    all_goals simp
  · cases hp : wr.pingErr <;> simp [CheckRedis, traceOK, hp]
  · cases hc : kw.newClientErr with
    | some e => simp [CheckKafka, traceOK, hc]
    | none =>
        cases ht : kw.topics with
        | error e => simp [CheckKafka, traceOK, hc, ht]
        | ok tps =>
            cases hm : firstMissingTopic [kafkaStu.MsgToMongo.Topic,
                kafkaStu.MsgToPush.Topic, kafkaStu.LatestMsgToRedis.Topic] tps <;>
              simp [CheckKafka, traceOK, hc, ht, hm]
  · cases hc : zw.connectErr <;> cases hzc : zkHasConnected zw.events <;>
      cases ha : zw.authErr <;>
      simp [CheckZookeeper, traceOK, hc, hzc, ha, apply_ite]

end Component
